import Mathlib

/-!
Verification of the Oanda streaming supervisor
(`vnpy/gateway/oanda/oanda_stream_api.py`) against its specification.

The Python module is shallowly embedded: dictionaries become functions into
`Option`, raised exceptions become `Except PyErr`, wall-clock instants become
natural numbers (seconds), and side effects (emitted events, log lines,
liveness-ledger writes) become explicit components of each handler's result.
Decimal strings are parsed into exact rationals.
-/

namespace OandaStream

/-- Runtime errors raised by the embedded Python code
(modelling Python's NameError, TypeError, KeyError, IndexError,
ZeroDivisionError and ValueError). -/
inductive PyErr : Type where
  | nameError (missing : String)
  | typeError (msg : String)
  | keyError (key : String)
  | indexError
  | zeroDivisionError
  | valueError (msg : String)
  deriving DecidableEq, Repr

/-- Exception classes relevant to the transport-error classifier
(`on_streaming_error` iterates over the five classes imported at the top of
the source file; `other` stands for any further class such as KeyError). -/
inductive ExcTag : Type where
  | protocolError
  | incompleteRead
  | remoteDisconnected
  | connectTimeout
  | readTimeout
  | other (className : String)
  deriving DecidableEq, Repr

mutual

/-- A Python exception value: its class together with its `args` tuple,
whose entries are either nested exceptions or arbitrary non-exception
values (modelled by strings). -/
inductive PyExc : Type where
  | mk (tag : ExcTag) (args : PyArgs)
  deriving DecidableEq, Repr

/-- The `args` tuple of an exception: a finite sequence whose entries are
either nested exception values or non-exception values. -/
inductive PyArgs : Type where
  | nil
  | consExc (e : PyExc) (rest : PyArgs)
  | consVal (v : String) (rest : PyArgs)
  deriving DecidableEq, Repr

end

mutual

/-- `OandaStreamApi.has_error` (source lines 175-182): true when the
exception itself is an instance of the target class, or when some entry of
its `args` tuple is an exception for which the check recursively succeeds. -/
def has_error (target : ExcTag) : PyExc → Bool
  | .mk tag args => (tag == target) || has_error_args target args

/-- The `for arg in e.args` loop of `has_error`: non-exception entries are
skipped (`isinstance(arg, Exception)` fails), exception entries recurse. -/
def has_error_args (target : ExcTag) : PyArgs → Bool
  | .nil => false
  | .consExc e rest => has_error target e || has_error_args target rest
  | .consVal _ rest => has_error_args target rest

end

mutual

/-- The nested-cause chain of an exception: its own class together with the
classes of every exception reachable through `args`, at any depth. -/
def chainTags : PyExc → List ExcTag
  | .mk tag args => tag :: chainTags_args args

/-- Chain contribution of an `args` tuple. -/
def chainTags_args : PyArgs → List ExcTag
  | .nil => []
  | .consExc e rest => chainTags e ++ chainTags_args rest
  | .consVal _ rest => chainTags_args rest

end

/-- The tuple of known transient classes iterated over at source line 195:
`(ProtocolError, IncompleteRead, RemoteDisconnected, ConnectTimeout, ReadTimeout)`. -/
def knownErrorTags : List ExcTag :=
  [.protocolError, .incompleteRead, .remoteDisconnected, .connectTimeout, .readTimeout]

/-- The classification loop of `on_streaming_error` (source lines 194-199):
`known` becomes true when `has_error` succeeds for some of the five classes. -/
def classify_known (e : PyExc) : Bool :=
  knownErrorTags.any fun t => has_error t e

/-- Observable actions of the streaming error handler: a log line, one
invocation of the re-subscribe closure, or escalation to the generic
error-reporting path (`super().on_error`). -/
inductive StreamAction : Type where
  | log (msg : String)
  | retry
  | escalate
  deriving DecidableEq, Repr

/-- `OandaStreamApi.on_streaming_error` (source lines 184-208) as the
sequence of its observable actions: an unconditional log line, the
classification loop logging when a known class matches, then the known
branch re-subscribing, and the unknown branch re-subscribing, logging and
escalating to `super().on_error`. -/
def on_streaming_error (e : PyExc) : List StreamAction :=
  [.log "ERRRRRROOOOOORRRRR"] ++
    (if classify_known e then [.log "Know ERR", .retry]
     else [.retry, .log "UNKnow ERR", .escalate])

/-! ## Price-stream message handling (`on_price`, source lines 149-173) -/

/-- Modelled from the spec: `parse_time` lives in `oanda_common`, outside
this module; it converts the broker's raw time string into the host's time
representation. Only injectivity of the representation matters here, so it
is modelled as a wrapper around the raw string. -/
structure ParsedTime : Type where
  raw : String
  deriving DecidableEq, Repr

/-- Modelled from the spec: `parse_time` from `oanda_common` (not part of
this module), wrapping the raw broker time string. -/
def parse_time (s : String) : ParsedTime := ⟨s⟩

/-- Modelled from the spec: `parse_datetime` from `oanda_common` (not part
of this module), wrapping the raw broker time string. -/
def parse_datetime (s : String) : ParsedTime := ⟨s⟩

/-- The hard-coded per-symbol tick-size table at source lines 27-32
("asked from official developer"). It is defined in the module but never
consulted by `on_price`. -/
def PRICE_TICKS : List (String × ℚ) :=
  [("BTCUSD", 1/2), ("ETHUSD", 5/100), ("EOSUSD", 1/1000), ("XRPUSD", 1/10000)]

/-- Python's `str.split(c)` over the character list of a string. -/
def splitOnChar (c : Char) : List Char → List (List Char)
  | [] => [[]]
  | a :: rest =>
    let r := splitOnChar c rest
    if a = c then [] :: r
    else
      match r with
      | [] => [[a]]
      | h :: t => (a :: h) :: t

/-- Digits-only reading of a character list as a natural number
(the integer or fractional part of a decimal literal). -/
def digitsToNat : List Char → Option Nat
  | [] => some 0
  | c :: rest =>
    if c.isDigit then
      (digitsToNat rest).map fun n => (c.toNat - 48) * 10 ^ rest.length + n
    else none

/-- Python's `float(s)` on the non-negative decimal strings this feed
carries, as an exact rational; malformed input raises ValueError. -/
def pyFloat (s : String) : Except PyErr ℚ :=
  match splitOnChar '.' s.toList with
  | [i] =>
    match digitsToNat i with
    | some n => .ok (n : ℚ)
    | none => .error (.valueError s)
  | [i, f] =>
    match digitsToNat i, digitsToNat f with
    | some n, some m => .ok ((n : ℚ) + (m : ℚ) / (10 : ℚ) ^ f.length)
    | _, _ => .error (.valueError s)
  | _ => .error (.valueError s)

/-- Python's `round` on a rational: round half to even (banker's rounding). -/
def pyRound (q : ℚ) : ℤ :=
  let f := ⌊q⌋
  let r := q - (f : ℚ)
  if r < 1/2 then f
  else if 1/2 < r then f + 1
  else if f % 2 = 0 then f else f + 1

/-- A Python value appearing in the mis-parenthesized last-price
expression: a number or a tuple. -/
inductive PyVal : Type where
  | num (q : ℚ)
  | tup (elems : List PyVal)

/-- Python's `/` on such values: tuples do not support division. -/
def pyDivVal : PyVal → PyVal → Except PyErr PyVal
  | .num a, .num b =>
    if b = 0 then .error .zeroDivisionError else .ok (.num (a / b))
  | _, _ => .error (.typeError "unsupported operand type for /")

/-- Python's `round` on such values: tuples cannot be rounded. -/
def pyRoundVal : PyVal → Except PyErr PyVal
  | .num q => .ok (.num (pyRound q))
  | .tup _ => .error (.typeError "type tuple cannot be rounded")

/-- Division of rationals with Python's ZeroDivisionError. -/
def pyDivQ (a b : ℚ) : Except PyErr ℚ :=
  if b = 0 then .error .zeroDivisionError else .ok (a / b)

/-- The last-price expression at source line 165, exactly as parenthesized:
`round((float(bid.price) + float(ask.price) + round_add, float_point) / 2)`.
The inner parentheses build a two-element tuple, which is then divided
by 2 — a TypeError in Python. -/
def last_price_expr (bp ap round_add : ℚ) (float_point : Nat) : Except PyErr PyVal := do
  let v ← pyDivVal (.tup [.num (bp + ap + round_add), .num (float_point : ℚ)]) (.num 2)
  pyRoundVal v

/-- One price level of the feed: `{price, liquidity}` with the price as the
raw decimal string the broker sent. -/
structure PriceLevel : Type where
  price : String
  liquidity : ℚ
  deriving DecidableEq, Repr

/-- A raw price-stream message: `{type, instrument, time, bids, asks}`. -/
structure PriceMsg : Type where
  type_ : String
  instrument : String
  time : String
  bids : List PriceLevel
  asks : List PriceLevel
  deriving DecidableEq, Repr

/-- Python's `xs[0]` (IndexError when the list is empty). -/
def pyIndex0 {α : Type} : List α → Except PyErr α
  | [] => .error .indexError
  | a :: _ => .ok a

/-- `bid['price'].split(".")[1]` at source line 156: the characters after
the first decimal point (IndexError when the price string has no dot). -/
def fracPart (priceStr : String) : Except PyErr (List Char) :=
  match splitOnChar '.' priceStr.toList with
  | _ :: f :: _ => .ok f
  | _ => .error .indexError

/-- The Liveness Ledger: stream key (instrument symbol or account id) to
last-seen timestamp, in seconds. -/
abbrev Ledger := String → Option Nat

/-- Dictionary assignment `ledger[key] = now`. -/
def ledgerSet (L : Ledger) (key : String) (now : Nat) : Ledger :=
  fun k => if k = key then some now else L k

/-- The well-known exchange tag attached to every normalized event. -/
inductive Exchange : Type where
  | OANDA
  deriving DecidableEq, Repr

/-- The normalized quote event (`TickData`), restricted to the fields this
module sets. -/
structure TickData : Type where
  symbol : String
  exchange : Exchange
  time : ParsedTime
  name : String
  last_price : ℚ
  bid_price_1 : ℚ
  bid_volume_1 : ℚ
  ask_price_1 : ℚ
  ask_volume_1 : ℚ
  volume : ℤ
  deriving DecidableEq, Repr

/-- `OandaStreamApi.on_price` (source lines 149-173). For a `PRICE`
message the handler rebinds `symbol` to the message's own instrument,
takes the single best bid and ask, derives the decimal precision from the
raw bid price string, computes `round_add = 1.0 / float_point * 10 * 5`,
then executes the debug print at line 158 — which reads the undefined
name `s` (`"..." %s (...)` parses as a call of `s`) and therefore raises
NameError before any tick can be built; the tick construction and the
ledger write at line 173 are unreachable on this branch. For any other
discriminant the handler only stamps the ledger under the subscribed
symbol. The ledger write uses the current time `now`. -/
def on_price (L : Ledger) (now : Nat) (symbol0 : String) (data : PriceMsg) :
    Except PyErr (Option TickData × Ledger) :=
  if data.type_ = "PRICE" then do
    -- line 152 rebinds `symbol` to the message's own instrument; the
    -- rebinding is inlined below as `data.instrument`
    let bid ← pyIndex0 data.bids
    let ask ← pyIndex0 data.asks
    let fracDigits ← fracPart bid.price
    let float_point := fracDigits.length
    let ra ← pyDivQ 1 (float_point : ℚ)
    let round_add := ra * 10 * 5
    let _ ← (.error (.nameError "s") : Except PyErr Unit)
    let bp ← pyFloat bid.price
    let ap ← pyFloat ask.price
    let lpv ← last_price_expr bp ap round_add float_point
    let lp ← (match lpv with
      | .num q => .ok q
      | _ => (.error (.typeError "tick price must be a number") : Except PyErr ℚ))
    let tick : TickData :=
      { symbol := data.instrument
        exchange := .OANDA
        time := parse_datetime data.time
        name := data.instrument
        last_price := lp
        bid_price_1 := bp
        bid_volume_1 := bid.liquidity
        ask_price_1 := ap
        ask_volume_1 := ask.liquidity
        volume := pyRound ((ask.liquidity + bid.liquidity + 1/2) / 2) }
    .ok (some tick, ledgerSet L data.instrument now)
  else
    .ok (none, ledgerSet L symbol0 now)

/-! ## Transaction-stream message handling (source lines 226-293) -/

/-- Order status values used by this module (`vnpy.trader.constant.Status`). -/
inductive Status : Type where
  | NOTTRADED
  | ALLTRADED
  | CANCELLED
  deriving DecidableEq, Repr

/-- Order direction (owned by the host; carried through unchanged). -/
inductive Direction : Type where
  | LONG
  | SHORT
  deriving DecidableEq, Repr

/-- Offset values (`Offset.NONE` is the only one this module uses). -/
inductive Offset : Type where
  | NONE
  deriving DecidableEq, Repr

/-- The host-owned order record, restricted to the fields this module
reads or writes. -/
structure OrderData : Type where
  symbol : String
  direction : Direction
  volume : ℚ
  traded : ℚ
  status : Status
  time : ParsedTime
  deriving DecidableEq, Repr

/-- The normalized fill event (`TradeData`), restricted to the fields this
module sets. -/
structure TradeData : Type where
  symbol : String
  exchange : Exchange
  orderid : String
  tradeid : String
  direction : Direction
  offset : Offset
  price : ℚ
  volume : ℚ
  time : ParsedTime
  deriving DecidableEq, Repr

/-- A normalized event handed to the host: `gateway.on_trade` or
`gateway.on_order`. -/
inductive Event : Type where
  | trade (t : TradeData)
  | order (o : OrderData)
  deriving DecidableEq, Repr

/-- A raw transaction-stream message, restricted to the fields this module
reads: the discriminant and the optional `clientOrderID`, `orderID`, `id`
and `price` fields, plus the time string. -/
structure TransMsg : Type where
  type_ : String
  clientOrderID : Option String
  orderID : Option String
  id : Option String
  price : Option String
  time : String
  deriving DecidableEq, Repr

/-- The host's order store `gateway.orders`, a dictionary keyed by order id. -/
abbrev OrderStore := String → Option OrderData

/-- Python's `d[k]` on a dictionary field: KeyError when absent. -/
def dictGet {α : Type} (entry : Option α) (key : String) : Except PyErr α :=
  match entry with
  | some v => .ok v
  | none => .error (.keyError key)

/-- Order-id resolution at source lines 253-255:
`data.get('clientOrderID', None)` with fallback `data['orderID']`
(the fallback raises KeyError when the field is absent). -/
def fill_order_id (data : TransMsg) : Except PyErr String :=
  match data.clientOrderID with
  | some cid => .ok cid
  | none => dictGet data.orderID "orderID"

/-- `OandaStreamApi.on_order_filled` (source lines 252-293): resolve the
order id, look the order up in `gateway.orders` (a plain dictionary
indexing — KeyError when absent), take the deprecated `price` field as the
fill price, emit one `TradeData` with the order's full resting volume,
then mark the order fully traded (`ALLTRADED`) and emit the updated order. -/
def on_order_filled (orders : OrderStore) (data : TransMsg) :
    Except PyErr (List Event) := do
  let order_id ← fill_order_id data
  let order ← dictGet (orders order_id) order_id
  let priceStr ← dictGet data.price "price"
  let price ← pyFloat priceStr
  let trade : TradeData :=
    { symbol := order.symbol
      exchange := .OANDA
      orderid := order_id
      tradeid := order_id
      direction := order.direction
      offset := .NONE
      price := price
      volume := order.volume
      time := parse_time data.time }
  .ok [.trade trade,
       .order { order with
                  traded := order.volume
                  status := .ALLTRADED
                  time := parse_time data.time }]

/-- `OandaStreamApi.on_order_canceled` (source lines 243-250): resolve the
order id (`clientOrderID`, falling back to `data['id']`), look the order up
by plain dictionary indexing (KeyError when absent), mark it CANCELLED,
stamp the cancellation time, and emit the updated order. -/
def on_order_canceled (orders : OrderStore) (data : TransMsg) :
    Except PyErr (List Event) := do
  let order_id ← (match data.clientOrderID with
    | some cid => .ok cid
    | none => dictGet data.id "id" : Except PyErr String)
  let order ← dictGet (orders order_id) order_id
  .ok [.order { order with
                  status := .CANCELLED
                  time := parse_time data.time }]

/-- Modelled from the spec: `OandaGateway.parse_order_data` lives in the
gateway module, outside this file; per the spec, order-acknowledgement
transactions are emitted uniformly as an order record with the given
status, stamped from the message's time field. The remaining order fields
are not described by the spec for this path and are left at fixed values. -/
def parse_order_data (data : TransMsg) (status : Status) : OrderData :=
  { symbol := ""
    direction := .LONG
    volume := 0
    traded := 0
    status := status
    time := parse_time data.time }

/-- `OandaStreamApi.on_order` (source lines 236-241): acknowledge the order
with status NOTTRADED. -/
def on_order (data : TransMsg) : Except PyErr (List Event) :=
  .ok [.order (parse_order_data data Status.NOTTRADED)]

/-- Result of one transaction-stream dispatch: the normalized events handed
to the host, the discriminants printed for diagnostics, and the updated
Liveness Ledger. -/
abbrev TransResult := List Event × List String × Ledger

/-- The dispatch of `OandaStreamApi.on_transaction` (source lines 226-232):
look the discriminant up in `_transaction_callbacks` (source lines 61-69)
and run the callback when found; otherwise print the discriminant unless
it is `HEARTBEAT`. -/
def transaction_branch (orders : OrderStore) (data : TransMsg) :
    Except PyErr (List Event × List String) :=
  if data.type_ = "ORDER_FILL" then
    (on_order_filled orders data).map fun evs => (evs, [])
  else if data.type_ = "MARKET_ORDER" then
    (on_order data).map fun evs => (evs, [])
  else if data.type_ = "LIMIT_ORDER" then
    (on_order data).map fun evs => (evs, [])
  else if data.type_ = "STOP_ORDER" then
    (on_order data).map fun evs => (evs, [])
  else if data.type_ = "ORDER_CANCEL" then
    (on_order_canceled orders data).map fun evs => (evs, [])
  else if data.type_ = "HEARTBEAT" then
    .ok ([], [])
  else
    .ok ([], [data.type_])

/-- See the doc comment above `transaction_branch`: the full handler runs
the dispatched branch and then stamps the account's ledger entry; a branch
exception propagates and the stamp is skipped. -/
def on_transaction (orders : OrderStore) (account_id : String) (L : Ledger)
    (now : Nat) (data : TransMsg) : Except PyErr TransResult :=
  (transaction_branch orders data).map fun p => (p.1, p.2, ledgerSet L account_id now)

/-- The list of discriminants present in `_transaction_callbacks`
(source lines 61-69). -/
def transactionCallbackTypes : List String :=
  ["ORDER_FILL", "MARKET_ORDER", "LIMIT_ORDER", "STOP_ORDER", "ORDER_CANCEL"]

/-! ## Watchdog (`_start_connection_checker` and `connection_checker`,
source lines 108-147) -/

/-- A market-data subscription request, identified by its instrument
symbol (`SubscribeRequest`). -/
structure Subscription : Type where
  symbol : String
  deriving DecidableEq, Repr

/-- The `already_init_check` guard state of `_start_connection_checker`:
whether a checker thread has been started, and for which subscription. -/
structure CheckerState : Type where
  already_init_check : Bool
  watched : Option Subscription
  deriving DecidableEq, Repr

/-- `_start_connection_checker` (source lines 108-124): only the first
successful subscription starts a watchdog thread, watching that
subscription's symbol; later subscriptions are guarded out by
`already_init_check` and add no watcher. -/
def start_connection_checker (st : CheckerState) (req : Subscription) :
    CheckerState :=
  if st.already_init_check then st
  else { already_init_check := true, watched := some req }

/-- What one polling cycle of `connection_checker` decides: the
subscription re-issued for the market stream (the captured
`partial(self.subscribe, copy(req))` closure), if any, and whether
`subscribe_transaction` is re-invoked. -/
structure CheckerResult : Type where
  marketResub : Option Subscription
  transResub : Bool
  deriving DecidableEq, Repr

/-- The `time.sleep(1)` at source line 140: the poll interval, in seconds. -/
def checker_poll_seconds : Nat := 1

/-- One cycle of the `while True` loop of `connection_checker`
(source lines 129-147). `now` is the `datetime.now()` taken at the top of
the cycle; the market ledger is read before the one-second sleep and the
transaction ledger after it (at `now2`), but both deltas are computed
against the pre-sleep `now`. A missing ledger entry is replaced by a fresh
`datetime.now()`, making its delta (essentially) zero — never stale. -/
def connection_checker_cycle (now : Nat) (marketL : Ledger) (now2 : Nat)
    (transL : Ledger) (req : Subscription) (account_id : String) :
    CheckerResult :=
  let latest := (marketL req.symbol).getD now
  let marketResub :=
    if (now : ℤ) - (latest : ℤ) > 10 then some req else none
  let latest2 := (transL account_id).getD now2
  let transResub := decide ((now : ℤ) - (latest2 : ℤ) > 30)
  { marketResub := marketResub, transResub := transResub }

/-! ## Per-message ledger step (shared by the liveness claims) -/

/-- A message arriving on some live session: a price-stream message for a
session subscribed under `symbol0`, or a transaction-stream message for
`account_id`. -/
inductive StreamMsg : Type where
  | price (symbol0 : String) (m : PriceMsg)
  | trans (account_id : String) (m : TransMsg)

/-- The Liveness Ledger after one message is processed at time `now`: the
handler's updated ledger on success, the unchanged ledger when the handler
raises (the write at line 173 / line 234 is skipped). -/
def stream_step (orders : OrderStore) (L : Ledger) (now : Nat) :
    StreamMsg → Ledger
  | .price s m =>
    match on_price L now s m with
    | .ok (_, L2) => L2
    | .error _ => L
  | .trans a m =>
    match on_transaction orders a L now m with
    | .ok (_, _, L2) => L2
    | .error _ => L

/-- Pointwise order on ledger entries: every recorded timestamp on the left
is still recorded on the right, and has not decreased. -/
def tsLE (a b : Option Nat) : Prop :=
  ∀ v, a = some v → ∃ w, b = some w ∧ v ≤ w

/-- One ledger dominates another at every stream key. -/
def LedgerMono (L1 L2 : Ledger) : Prop :=
  ∀ k, tsLE (L1 k) (L2 k)

/-- Every timestamp recorded in the ledger is at most `t` (the clock has
not run backwards relative to the records). -/
def LedgerBound (L : Ledger) (t : Nat) : Prop :=
  ∀ k v, L k = some v → v ≤ t

/-! ## Concrete fixtures used by the claim-level evaluations -/

/-- The empty Liveness Ledger. -/
def emptyLedger : Ledger := fun _ => none

/-- An order store with no orders. -/
def emptyOrders : OrderStore := fun _ => none

/-- A well-formed `PRICE` message with one best bid and one best ask
(five digits after the decimal point in the raw bid price string). -/
def c2msg : PriceMsg :=
  { type_ := "PRICE", instrument := "EURUSD", time := "2019-01-01T00:00:00Z",
    bids := [{ price := "1.23450", liquidity := 10 }],
    asks := [{ price := "1.23470", liquidity := 20 }] }

/-- A well-formed `PRICE` message with bid liquidity 10 and ask
liquidity 20. -/
def c7msg : PriceMsg :=
  { type_ := "PRICE", instrument := "EURUSD", time := "2019-01-01T00:00:01Z",
    bids := [{ price := "1.10000", liquidity := 10 }],
    asks := [{ price := "1.10020", liquidity := 20 }] }

/-- A `PRICE` message whose own instrument differs from the subscription
symbol it is delivered under. -/
def c10msg : PriceMsg :=
  { type_ := "PRICE", instrument := "GBPUSD", time := "2019-01-01T00:00:02Z",
    bids := [{ price := "1.1000", liquidity := 1 }],
    asks := [{ price := "1.1002", liquidity := 1 }] }

/-- The same message with a non-`PRICE` discriminant. -/
def c10heartbeat : PriceMsg := { c10msg with type_ := "HEARTBEAT" }

/-- An `ORDER_FILL` transaction whose client order id is absent from the
order store. -/
def c4FillMsg : TransMsg :=
  { type_ := "ORDER_FILL", clientOrderID := some "abc", orderID := none,
    id := none, price := some "1.2345", time := "10:00:00" }

/-- An `ORDER_CANCEL` transaction whose broker order id is absent from the
order store. -/
def c4CancelMsg : TransMsg :=
  { type_ := "ORDER_CANCEL", clientOrderID := none, orderID := none,
    id := some "42", price := none, time := "10:00:01" }

/-- A resting order of volume 100, not yet traded. -/
def c5Order : OrderData :=
  { symbol := "EUR_USD", direction := .LONG, volume := 100, traded := 0,
    status := .NOTTRADED, time := ⟨""⟩ }

/-- An order store holding `c5Order` under client id "abc". -/
def c5Orders : OrderStore := fun k => if k = "abc" then some c5Order else none

/-- An `ORDER_FILL` transaction for client order id "abc" at price
"1.2345". -/
def c5Msg : TransMsg :=
  { type_ := "ORDER_FILL", clientOrderID := some "abc", orderID := none,
    id := none, price := some "1.2345", time := "10:00:02" }

/-- A transaction-stream heartbeat message. -/
def c8HbMsg : TransMsg :=
  { type_ := "HEARTBEAT", clientOrderID := none, orderID := none,
    id := none, price := none, time := "10:00:03" }

/-- A transaction message with a discriminant outside the dispatch table. -/
def c8FundMsg : TransMsg := { c8HbMsg with type_ := "FUNDING" }

/-- A market ledger tracking two instruments: the watched "EURUSD" is
fresh at time 100, while "GBPUSD" has been silent since time 0. -/
def c1Ledger : Ledger :=
  fun k => if k = "GBPUSD" then some 0 else if k = "EURUSD" then some 100 else none

/-- A market ledger where the watched symbol was last seen at time 5. -/
def c1wm : Ledger := fun k => if k = "EURUSD" then some 5 else none

/-- A transaction ledger where the account was last seen at time 0. -/
def c1wt : Ledger := fun k => if k = "001" then some 0 else none

/-- A transaction heartbeat used by the liveness-monotonicity witness. -/
def c9Hb : TransMsg :=
  { type_ := "HEARTBEAT", clientOrderID := none, orderID := none,
    id := none, price := none, time := "10:00:04" }

/-- Two heartbeats delivered at seconds 1 and 2. -/
def c9Msgs : List (Nat × StreamMsg) :=
  [(1, .trans "001" c9Hb), (2, .trans "001" c9Hb)]

/-! ## Helper lemmas -/

/-- Bind on a successful `Except` computation. -/
theorem except_ok_bind {ε α β : Type} (a : α) (f : α → Except ε β) :
    (Except.ok a >>= f) = f a := rfl

/-- Bind on a failed `Except` computation. -/
theorem except_error_bind {ε α β : Type} (e : ε) (f : α → Except ε β) :
    ((Except.error e : Except ε α) >>= f) = Except.error e := rfl

mutual

/-- `has_error` succeeds exactly on the classes in the nested-cause chain. -/
theorem has_error_iff_mem (t : ExcTag) :
    ∀ e : PyExc, has_error t e = true ↔ t ∈ chainTags e
  | .mk tag args => by
    simp only [has_error, chainTags, Bool.or_eq_true, beq_iff_eq,
      List.mem_cons, has_error_args_iff_mem t args]
    constructor
    · rintro (h | h)
      · exact Or.inl h.symm
      · exact Or.inr h
    · rintro (h | h)
      · exact Or.inl h.symm
      · exact Or.inr h

/-- `args`-tuple version of `has_error_iff_mem`. -/
theorem has_error_args_iff_mem (t : ExcTag) :
    ∀ l : PyArgs, has_error_args t l = true ↔ t ∈ chainTags_args l
  | .nil => by simp [has_error_args, chainTags_args]
  | .consExc e rest => by
    simp [has_error_args, chainTags_args, has_error_iff_mem t e,
      has_error_args_iff_mem t rest]
  | .consVal v rest => by
    simp [has_error_args, chainTags_args, has_error_args_iff_mem t rest]

end

/-- On the `PRICE` branch of `on_price` some exception is always raised:
the handler cannot get past the debug print at source line 158, whose
format expression reads the undefined name `s`. -/
theorem on_price_price_raises (L : Ledger) (now : Nat) (s0 : String)
    (d : PriceMsg) (h : d.type_ = "PRICE") :
    ∃ e, on_price L now s0 d = .error e := by
  unfold on_price
  rw [if_pos h]
  cases hb : pyIndex0 d.bids with
  | error e => exact ⟨e, rfl⟩
  | ok bid =>
    simp only [except_ok_bind]
    cases ha : pyIndex0 d.asks with
    | error e => exact ⟨e, rfl⟩
    | ok ask =>
      simp only [except_ok_bind]
      cases hf : fracPart bid.price with
      | error e => exact ⟨e, rfl⟩
      | ok fd =>
        simp only [except_ok_bind]
        cases hr : pyDivQ 1 (fd.length : ℚ) with
        | error e => exact ⟨e, rfl⟩
        | ok ra => exact ⟨.nameError "s", by simp only [except_ok_bind]; rfl⟩

/-- On any other discriminant, `on_price` only stamps the ledger under the
subscribed symbol. -/
theorem on_price_not_price (L : Ledger) (now : Nat) (s0 : String)
    (d : PriceMsg) (h : ¬ d.type_ = "PRICE") :
    on_price L now s0 d = .ok (none, ledgerSet L s0 now) := by
  unfold on_price
  rw [if_neg h]

/-- Whenever `on_transaction` returns successfully, the resulting ledger is
the input ledger with the account's entry stamped to the current time. -/
theorem on_transaction_ok_ledger (orders : OrderStore) (a : String)
    (L : Ledger) (now : Nat) (d : TransMsg) (evs : List Event)
    (logs : List String) (L2 : Ledger)
    (h : on_transaction orders a L now d = .ok (evs, logs, L2)) :
    L2 = ledgerSet L a now := by
  unfold on_transaction at h
  cases hb : transaction_branch orders d with
  | error e => rw [hb] at h; exact absurd h (by simp [Except.map])
  | ok p =>
    rw [hb] at h
    simp only [Except.map, Except.ok.injEq, Prod.mk.injEq] at h
    exact h.2.2.symm

/-- After one message is processed, every ledger entry is either unchanged
or stamped to the current time. -/
theorem stream_step_pointwise (orders : OrderStore) (L : Ledger) (now : Nat)
    (m : StreamMsg) (k : String) :
    stream_step orders L now m k = L k ∨
      stream_step orders L now m k = some now := by
  cases m with
  | price s d =>
    by_cases h : d.type_ = "PRICE"
    · obtain ⟨e, he⟩ := on_price_price_raises L now s d h
      simp [stream_step, he]
    · simp only [stream_step, on_price_not_price L now s d h, ledgerSet]
      by_cases hk : k = s
      · exact Or.inr (if_pos hk)
      · exact Or.inl (if_neg hk)
  | trans a d =>
    cases ht : on_transaction orders a L now d with
    | error e => simp [stream_step, ht]
    | ok res =>
      obtain ⟨evs, logs, L2⟩ := res
      have hL2 := on_transaction_ok_ledger orders a L now d evs logs L2 ht
      simp only [stream_step, ht, hL2, ledgerSet]
      by_cases hk : k = a
      · exact Or.inr (if_pos hk)
      · exact Or.inl (if_neg hk)

/-- One step preserves every recorded timestamp (up to advancement) and
keeps the ledger bounded by the current time. -/
theorem stream_step_mono (orders : OrderStore) (L : Ledger) (now : Nat)
    (m : StreamMsg) (hb : LedgerBound L now) :
    LedgerMono L (stream_step orders L now m) ∧
      LedgerBound (stream_step orders L now m) now := by
  constructor
  · intro k v hv
    rcases stream_step_pointwise orders L now m k with h | h
    · exact ⟨v, by rw [h, hv], le_rfl⟩
    · exact ⟨now, h, hb k v hv⟩
  · intro k v hv
    rcases stream_step_pointwise orders L now m k with h | h
    · rw [h] at hv
      exact hb k v hv
    · rw [h] at hv
      injection hv with hv2
      exact le_of_eq hv2.symm

/-- The first element of a `scanl` is its initial accumulator. -/
theorem scanl_head {α β : Type} (f : β → α → β) (b : β) (l : List α) :
    (List.scanl f b l).head? = some b := by
  cases l <;> simp [List.scanl]

/-- Processing a time-ordered message sequence from a ledger bounded by
the first arrival time yields a pointwise non-decreasing chain of ledgers. -/
theorem ledger_chain_aux (orders : OrderStore) :
    ∀ (msgs : List (Nat × StreamMsg)) (init : Ledger) (t0 : Nat),
      LedgerBound init t0 →
      List.Chain' (fun a b => a ≤ b) (msgs.map Prod.fst) →
      (∀ t1, (msgs.map Prod.fst).head? = some t1 → t0 ≤ t1) →
      List.Chain' LedgerMono
        (List.scanl (fun L p => stream_step orders L p.1 p.2) init msgs)
  | [], init, t0, _, _, _ => by
    simp [List.scanl_nil, List.chain'_singleton]
  | (t, m) :: rest, init, t0, hb, hc, hh => by
    rw [List.map_cons] at hc
    have hcc := List.chain'_cons'.mp hc
    show List.Chain' LedgerMono
      (init :: List.scanl (fun L p => stream_step orders L p.1 p.2)
        (stream_step orders init t m) rest)
    have ht0 : t0 ≤ t := hh t (by simp)
    have hb2 : LedgerBound init t := fun k v hv => le_trans (hb k v hv) ht0
    have hstep := stream_step_mono orders init t m hb2
    refine List.chain'_cons'.mpr ⟨?_, ?_⟩
    · intro L2 hL2
      rw [Option.mem_def, scanl_head, Option.some.injEq] at hL2
      rw [← hL2]
      exact hstep.1
    · exact ledger_chain_aux orders rest _ t hstep.2 hcc.2
        (fun t1 h1 => hcc.1 t1 (Option.mem_def.mpr h1))

/-! ## Claim theorems -/

/-- Claim C1, counterexample: the watchdog cycle does not rebuild every
stale tracked market-data stream key. With the single checker watching
"EURUSD", the tracked key "GBPUSD" has been stale for 100 seconds (> 10)
at time 100, yet the cycle re-subscribes nothing at all. -/
theorem C1_counterexample_unwatched_key :
    c1Ledger "GBPUSD" = some 0 ∧ ((100 : ℤ) - 0 > 10) ∧
      connection_checker_cycle 100 c1Ledger 101 emptyLedger ⟨"EURUSD"⟩ "001"
        = { marketResub := none, transResub := false } :=
  ⟨rfl, by norm_num, rfl⟩

/-- Claim C1, amended: only one watchdog loop is ever started — by the
first successful subscription — and each of its cycles consults exactly
two ledger entries: the watched subscription's own symbol against the
10-second threshold (re-invoking the original subscribe with the original
request on breach) and the account's transaction key against the
30-second threshold (compared against the time sampled before the
one-second sleep); every other tracked market-data key is ignored. -/
theorem C1_amended_watchdog (now now2 : Nat) (mL tL : Ledger)
    (req req2 : Subscription) (acct : String) (tm tt : Nat)
    (hm : mL req.symbol = some tm) (ht : tL acct = some tt) :
    (((now : ℤ) - tm > 10) →
      (connection_checker_cycle now mL now2 tL req acct).marketResub
        = some req) ∧
    (((now : ℤ) - tm ≤ 10) →
      (connection_checker_cycle now mL now2 tL req acct).marketResub
        = none) ∧
    ((connection_checker_cycle now mL now2 tL req acct).transResub = true ↔
      (now : ℤ) - tt > 30) ∧
    (∀ mL2 tL2 : Ledger, mL2 req.symbol = mL req.symbol →
      tL2 acct = tL acct →
      connection_checker_cycle now mL2 now2 tL2 req acct =
        connection_checker_cycle now mL now2 tL req acct) ∧
    (start_connection_checker ⟨false, none⟩ req = ⟨true, some req⟩ ∧
      start_connection_checker ⟨true, some req⟩ req2 = ⟨true, some req⟩) ∧
    checker_poll_seconds = 1 := by
  refine ⟨?_, ?_, ?_, ?_, ⟨rfl, rfl⟩, rfl⟩
  · intro hstale
    simp [connection_checker_cycle, hm, hstale]
  · intro hfresh
    have hno : ¬ ((now : ℤ) - (tm : ℤ) > 10) := by omega
    simp [connection_checker_cycle, hm, hno]
  · simp [connection_checker_cycle, ht]
  · intro mL2 tL2 h1 h2
    simp only [connection_checker_cycle, h1, h2]

/-- Witness for `C1_amended_watchdog` at a concrete stale watched key. -/
theorem C1_amended_watchdog_witness :
    c1wm "EURUSD" = some 5 ∧ c1wt "001" = some 0 ∧ ((20 : ℤ) - 5 > 10) ∧
      (connection_checker_cycle 20 c1wm 21 c1wt ⟨"EURUSD"⟩ "001").marketResub
        = some ⟨"EURUSD"⟩ :=
  ⟨rfl, rfl, by norm_num,
    (C1_amended_watchdog 20 21 c1wm c1wt ⟨"EURUSD"⟩ ⟨"GBPUSD"⟩ "001" 5 0
      rfl rfl).1 (by norm_num)⟩

/-- Claim C2, code-bug evaluation: on a well-formed PRICE message with one
best bid and one best ask, the handler raises NameError — the debug print
at source line 158 reads the undefined name `s` — so no tick carrying a
midpoint last price is ever produced; independently, the last-price
expression at source line 165 is mis-parenthesized and divides a
two-element tuple by 2, a TypeError for every input (and the `PRICE_TICKS`
table is never consulted by `on_price` at all). -/
theorem C2_price_midpoint_crash :
    on_price emptyLedger 5 "EURUSD" c2msg = .error (.nameError "s") ∧
      ∀ (bp ap ra : ℚ) (fp : Nat),
        last_price_expr bp ap ra fp
          = .error (.typeError "unsupported operand type for /") :=
  ⟨rfl, fun _ _ _ _ => rfl⟩

/-- Claim C3: every transport error — known or unknown — leads to exactly
one re-subscribe invocation, and escalation to the generic error-reporting
path happens exactly for the unknown errors. -/
theorem C3_always_retry_escalate_iff_unknown (e : PyExc) :
    (on_streaming_error e).count StreamAction.retry = 1 ∧
      (StreamAction.escalate ∈ on_streaming_error e ↔
        classify_known e = false) := by
  cases h : classify_known e <;> simp only [on_streaming_error, h] <;> decide

/-- Claim C4, code-bug evaluation: on an ORDER_FILL or ORDER_CANCEL whose
order id is absent from the order store, the handler raises KeyError (the
dictionary indexing at source lines 257 and 247 has no guard), so the
event is not logged-and-skipped: the exception propagates out of
`on_transaction` to the session boundary and the ledger stamp is skipped. -/
theorem C4_missing_order_raises :
    on_transaction emptyOrders "001" emptyLedger 3 c4FillMsg
      = .error (.keyError "abc") ∧
    on_transaction emptyOrders "001" emptyLedger 4 c4CancelMsg
      = .error (.keyError "42") ∧
    stream_step emptyOrders emptyLedger 3 (.trans "001" c4FillMsg) "001"
      = none :=
  ⟨rfl, rfl, rfl⟩

/-- Claim C5: an ORDER_FILL is looked up by client-assigned id, falling
back to the broker-assigned `orderID` when no client id is present; on a
successful lookup exactly one fill event is emitted, with the deprecated
`price` field as its price and the order's full resting volume as its
volume, and the order is marked ALLTRADED with `traded` set to its full
volume. -/
theorem C5_order_fill (orders : OrderStore) (acct : String) (L : Ledger)
    (now : Nat) (data : TransMsg) (oid : String) (order : OrderData)
    (p : ℚ) (ps : String)
    (hty : data.type_ = "ORDER_FILL")
    (hid : fill_order_id data = .ok oid)
    (hord : orders oid = some order)
    (hps : data.price = some ps)
    (hp : pyFloat ps = .ok p) :
    on_transaction orders acct L now data =
      .ok ([.trade { symbol := order.symbol, exchange := .OANDA,
                     orderid := oid, tradeid := oid,
                     direction := order.direction, offset := .NONE,
                     price := p, volume := order.volume,
                     time := parse_time data.time },
            .order { order with
                       traded := order.volume,
                       status := .ALLTRADED,
                       time := parse_time data.time }],
           [], ledgerSet L acct now) ∧
    (∀ c, data.clientOrderID = some c → oid = c) ∧
    (data.clientOrderID = none → data.orderID = some oid) := by
  have hfill : on_order_filled orders data =
      .ok [.trade { symbol := order.symbol, exchange := .OANDA,
                    orderid := oid, tradeid := oid,
                    direction := order.direction, offset := .NONE,
                    price := p, volume := order.volume,
                    time := parse_time data.time },
           .order { order with
                      traded := order.volume,
                      status := .ALLTRADED,
                      time := parse_time data.time }] := by
    unfold on_order_filled
    rw [hid]
    simp only [except_ok_bind]
    rw [hord]
    simp only [dictGet, except_ok_bind]
    rw [hps]
    simp only [dictGet, except_ok_bind]
    rw [hp]
    simp only [except_ok_bind]
  refine ⟨?_, ?_, ?_⟩
  · unfold on_transaction transaction_branch
    rw [if_pos hty, hfill]
    rfl
  · intro c hc
    unfold fill_order_id at hid
    rw [hc] at hid
    exact (Except.ok.injEq .. ▸ hid).symm
  · intro hnone
    unfold fill_order_id at hid
    rw [hnone] at hid
    cases ho : data.orderID with
    | none => rw [ho] at hid; exact absurd hid (by simp [dictGet])
    | some x =>
      rw [ho] at hid
      simp only [dictGet, Except.ok.injEq] at hid
      rw [hid]

/-- Witness for `C5_order_fill`: client order "abc" of volume 100 filled
at price "1.2345". -/
theorem C5_order_fill_witness :
    c5Msg.type_ = "ORDER_FILL" ∧ fill_order_id c5Msg = .ok "abc" ∧
    c5Orders "abc" = some c5Order ∧ c5Msg.price = some "1.2345" ∧
    pyFloat "1.2345" = .ok (12345/10000) ∧
    on_transaction c5Orders "001" emptyLedger 8 c5Msg =
      .ok ([.trade { symbol := "EUR_USD", exchange := .OANDA,
                     orderid := "abc", tradeid := "abc",
                     direction := .LONG, offset := .NONE,
                     price := 12345/10000, volume := 100,
                     time := parse_time "10:00:02" },
            .order { symbol := "EUR_USD", direction := .LONG,
                     volume := 100, traded := 100,
                     status := .ALLTRADED,
                     time := parse_time "10:00:02" }],
           [], ledgerSet emptyLedger "001" 8) := by
  have hp : pyFloat "1.2345" = .ok (12345/10000) := by
    have h : ((12345 : ℚ)/10000) = (1 : ℚ) + 2345 / (10 : ℚ) ^ (4 : Nat) := by
      norm_num
    rw [h]
    rfl
  refine ⟨rfl, rfl, rfl, rfl, hp, ?_⟩
  exact (C5_order_fill c5Orders "001" emptyLedger 8 c5Msg "abc" c5Order
    (12345/10000) "1.2345" rfl rfl rfl rfl hp).1

/-- Claim C6: an error is classified as a known transient kind exactly
when its nested-cause chain (itself or any exception reachable through
nested exception arguments, at any depth) contains one of the five
recognized kinds: protocol error, incomplete read, remote disconnect,
connect timeout, read timeout. -/
theorem C6_known_iff_chain_transient (e : PyExc) :
    classify_known e = true ↔
      ∃ t ∈ chainTags e,
        t ∈ ([.protocolError, .incompleteRead, .remoteDisconnected,
              .connectTimeout, .readTimeout] : List ExcTag) := by
  unfold classify_known knownErrorTags
  rw [List.any_eq_true]
  constructor
  · rintro ⟨t, htmem, hte⟩
    exact ⟨t, (has_error_iff_mem t e).mp hte, htmem⟩
  · rintro ⟨t, htchain, htmem⟩
    exact ⟨t, htmem, (has_error_iff_mem t e).mpr htchain⟩

/-- Claim C7, code-bug evaluation: for a well-formed PRICE message with
bid liquidity 10 and ask liquidity 20, the handler raises NameError at the
debug print (source line 158) before the tick construction, so no
normalized tick — and hence no per-side or aggregate volume — is produced
for any ledger, clock or subscription symbol. -/
theorem C7_no_tick_no_volumes (L : Ledger) (now : Nat) (s0 : String) :
    on_price L now s0 c7msg = .error (.nameError "s") := rfl

/-- Claim C8: a HEARTBEAT transaction emits no event yet still stamps the
account's ledger entry; a discriminant outside the dispatch table emits no
event, prints the discriminant for diagnostics, stamps the ledger and
returns successfully (the stream does not fail). -/
theorem C8_heartbeat_and_unknown (orders : OrderStore) (acct : String)
    (L : Ledger) (now : Nat) (d : TransMsg) :
    (d.type_ = "HEARTBEAT" →
      on_transaction orders acct L now d
        = .ok ([], [], ledgerSet L acct now)) ∧
    (d.type_ ∉ transactionCallbackTypes → d.type_ ≠ "HEARTBEAT" →
      on_transaction orders acct L now d
        = .ok ([], [d.type_], ledgerSet L acct now)) := by
  constructor
  · intro h
    obtain ⟨ty, cid, oid, idf, pr, tm⟩ := d
    simp only at h
    subst h
    rfl
  · intro hmem hne
    simp only [transactionCallbackTypes, List.mem_cons, List.not_mem_nil,
      or_false, not_or] at hmem
    obtain ⟨h1, h2, h3, h4, h5⟩ := hmem
    unfold on_transaction transaction_branch
    rw [if_neg h1, if_neg h2, if_neg h3, if_neg h4, if_neg h5, if_neg hne]
    rfl

/-- Witness for `C8_heartbeat_and_unknown`: a HEARTBEAT and a FUNDING
message. -/
theorem C8_heartbeat_and_unknown_witness :
    c8FundMsg.type_ ∉ transactionCallbackTypes ∧
    c8FundMsg.type_ ≠ "HEARTBEAT" ∧
    on_transaction emptyOrders "001" emptyLedger 6 c8HbMsg
      = .ok ([], [], ledgerSet emptyLedger "001" 6) ∧
    on_transaction emptyOrders "001" emptyLedger 7 c8FundMsg
      = .ok ([], ["FUNDING"], ledgerSet emptyLedger "001" 7) :=
  ⟨by decide, by decide,
    (C8_heartbeat_and_unknown emptyOrders "001" emptyLedger 6 c8HbMsg).1 rfl,
    (C8_heartbeat_and_unknown emptyOrders "001" emptyLedger 7 c8FundMsg).2
      (by decide) (by decide)⟩

/-- Claim C9: along any sequence of messages processed at non-decreasing
wall-clock times, starting from a ledger whose records do not postdate the
first arrival, every stream key's Liveness Ledger timestamp is
monotonically non-decreasing from each processed message to the next. -/
theorem C9_ledger_monotone (orders : OrderStore) (init : Ledger)
    (msgs : List (Nat × StreamMsg)) (t0 : Nat)
    (hb : LedgerBound init t0)
    (hc : List.Chain' (fun a b => a ≤ b) (msgs.map Prod.fst))
    (hh : ∀ t1, (msgs.map Prod.fst).head? = some t1 → t0 ≤ t1) :
    List.Chain' LedgerMono
      (List.scanl (fun L p => stream_step orders L p.1 p.2) init msgs) :=
  ledger_chain_aux orders msgs init t0 hb hc hh

/-- Witness for `C9_ledger_monotone`: two heartbeats at seconds 1 and 2
from the empty ledger. -/
theorem C9_ledger_monotone_witness :
    LedgerBound emptyLedger 0 ∧
    List.Chain' (fun a b => a ≤ b) (c9Msgs.map Prod.fst) ∧
    (∀ t1, (c9Msgs.map Prod.fst).head? = some t1 → 0 ≤ t1) ∧
    List.Chain' LedgerMono
      (List.scanl (fun L p => stream_step emptyOrders L p.1 p.2)
        emptyLedger c9Msgs) := by
  have hb : LedgerBound emptyLedger 0 := by
    intro k v hv
    simp [emptyLedger] at hv
  have hc : List.Chain' (fun a b : Nat => a ≤ b) (c9Msgs.map Prod.fst) := by
    simp [c9Msgs]
  have hh : ∀ t1, (c9Msgs.map Prod.fst).head? = some t1 → 0 ≤ t1 :=
    fun t1 _ => Nat.zero_le t1
  exact ⟨hb, hc, hh, C9_ledger_monotone emptyOrders emptyLedger c9Msgs 0 hb hc hh⟩

/-- Claim C10, code-bug evaluation: a PRICE message carrying the
instrument "GBPUSD" on the stream subscribed under "EURUSD" raises
NameError before the ledger write at source line 173, so neither
"GBPUSD" nor "EURUSD" gets its ledger entry refreshed (the claim's
"otherwise" part does hold: a non-PRICE message stamps the subscribed
symbol). -/
theorem C10_price_ledger_key :
    on_price emptyLedger 9 "EURUSD" c10msg = .error (.nameError "s") ∧
    stream_step emptyOrders emptyLedger 9 (.price "EURUSD" c10msg) "GBPUSD"
      = none ∧
    stream_step emptyOrders emptyLedger 9 (.price "EURUSD" c10msg) "EURUSD"
      = none ∧
    on_price emptyLedger 9 "EURUSD" c10heartbeat
      = .ok (none, ledgerSet emptyLedger "EURUSD" 9) :=
  ⟨rfl, rfl, rfl, rfl⟩

end OandaStream
